import Mathlib

/-!
Verification of the `uid_search` program (src/testuid.cpp), a self-contained
benchmark harness around an in-memory record store keyed by 7-byte UIDs.

Modelling conventions:
* A C++ `std::string` is a byte sequence, modelled as `List Nat` (`Str`),
  one entry per byte.
* `Record` mirrors the C++ class; its throwing constructor is `Record.make`,
  returning `Except String Record` (the `error` case models the thrown
  `invalid_argument`).
* `Database` models the data-structure logic of the C++ class: the
  `std::vector<Record>` is a `List Record` and the
  `unordered_map<string, Record*>` is an association list from `Str` to the
  position of the pointee in the vector (a raw pointer denotes exactly that
  position while it is valid).
* `PtrDatabase` refines `Database` by additionally tracking vector capacity
  and a buffer generation counter, so that pointer invalidation caused by
  `std::vector` reallocation on `push_back` becomes observable (growth policy
  of libstdc++: capacity 1 on first growth, doubling afterwards; the C++
  standard guarantees reallocation whenever the new size exceeds capacity).
-/

namespace UidSearch

/-- A byte string: the model of C++ `std::string` (one `Nat` per byte). -/
abbrev Str := List Nat

/-- UTF-8 bytes of a Lean string literal, as a `Str`; used to transcribe the
string literals of the C++ source. -/
def strBytes (s : String) : Str :=
  s.data.flatMap (fun c => (String.utf8EncodeChar c).map (fun b => b.toNat))

/-- The record class (src/testuid.cpp lines 14-29): a 7-byte `uid` and an
arbitrary `data` payload. Fields are private in C++ and immutable after
construction; reading goes through `getUid`/`getData`. -/
structure Record where
  uid : Str
  data : Str
deriving DecidableEq, Repr

/-- Message of the `invalid_argument` thrown by the `Record` constructor
(line 23 of the source). -/
def uidLengthError : String := "UID должен быть длиной ровно 7 байт"

/-- The `Record` constructor (lines 20-25): stores both fields, then throws
`invalid_argument` when the uid is not exactly 7 bytes long. -/
def Record.make (uid data : Str) : Except String Record :=
  if uid.length ≠ 7 then Except.error uidLengthError
  else Except.ok { uid := uid, data := data }

/-- Getter `Record::getUid` (line 27). -/
def Record.getUid (r : Record) : Str := r.uid

/-- Getter `Record::getData` (line 28). -/
def Record.getData (r : Record) : Str := r.data

/-- Replace-or-insert on an association list: the model of
`unordered_map::operator[] = v` (insert if absent, overwrite if present). -/
def setIndex {α : Type} (idx : List (Str × α)) (k : Str) (v : α) : List (Str × α) :=
  match idx with
  | [] => [(k, v)]
  | (k', v') :: rest => if k' = k then (k, v) :: rest else (k', v') :: setIndex rest k v

/-- Lookup on an association list: the model of `unordered_map::find`
(returns `none` for the end iterator). -/
def findIndex {α : Type} (idx : List (Str × α)) (k : Str) : Option α :=
  match idx with
  | [] => none
  | (k', v') :: rest => if k' = k then some v' else findIndex rest k

/-- The database class (lines 32-69): a vector of records plus a hash index
from uid to the position of the record in the vector (the position is what
the stored `Record*` denotes). -/
structure Database where
  records : List Record
  index : List (Str × Nat)
deriving DecidableEq, Repr

/-- A default-constructed, empty database. -/
def Database.empty : Database := { records := [], index := [] }

/-- Method `Database::addRecord` (lines 44-48): push the record onto the vector,
then point the index entry for its uid at the just-appended element
(`&records.back()`, i.e. the position equal to the old vector size). -/
def Database.addRecord (db : Database) (r : Record) : Database :=
  { records := db.records ++ [r]
    index := setIndex db.index r.uid db.records.length }

/-- Method `Database::findRecord` (lines 51-57), with the method's post-state made
explicit: look the uid up in the index; return the pointee on a hit and the
null pointer (`none`) on a miss. The method only calls `index.find`, so the
returned state is the receiver in both branches. -/
def Database.findRecordSt (db : Database) (uid : Str) : Option Record × Database :=
  match findIndex db.index uid with
  | some i => (db.records[i]?, db)
  | none => (none, db)

/-- Method `Database::findRecord` (lines 51-57), result only: `some r` models a
non-null `Record*` pointing at `r`, `none` models `nullptr`. -/
def Database.findRecord (db : Database) (uid : Str) : Option Record :=
  match findIndex db.index uid with
  | some i => db.records[i]?
  | none => none

/-- Method `Database::size` (lines 60-62): the number of records in the vector. -/
def Database.size (db : Database) : Nat := db.records.length

/-- Method `Database::clear` (lines 65-68): empties both the vector and the index. -/
def Database.clear (_ : Database) : Database := { records := [], index := [] }

/-- A mutating operation on the store; the only ones the class offers are
`addRecord` and `clear` (records are never deleted individually). -/
inductive DbOp where
  | add (r : Record)
  | clear
deriving DecidableEq, Repr

/-- Apply one store operation. -/
def Database.runOp (db : Database) (op : DbOp) : Database :=
  match op with
  | DbOp.add r => db.addRecord r
  | DbOp.clear => db.clear

/-- Apply a sequence of store operations in order. -/
def Database.runOps (db : Database) : List DbOp → Database
  | [] => db
  | op :: rest => (db.runOp op).runOps rest

/-- The identifiers of all records inserted by a sequence of operations. -/
def opsInsertedUids : List DbOp → List Str
  | [] => []
  | DbOp.add r :: rest => r.uid :: opsInsertedUids rest
  | DbOp.clear :: rest => opsInsertedUids rest

/-- The database with the raw-pointer semantics made explicit
(refining `Database` for the same source lines 32-69): `cap` is the current
capacity of the `std::vector` buffer and `gen` is a buffer generation
counter, bumped each time `push_back` reallocates. The index stores, for
each uid, the pair (generation at which the pointer was taken, position of
the pointee); the pointer is dangling whenever its generation is not the
current one. -/
structure PtrDatabase where
  records : List Record
  cap : Nat
  gen : Nat
  index : List (Str × (Nat × Nat))
deriving DecidableEq, Repr

/-- A default-constructed, empty database (vector capacity 0). -/
def PtrDatabase.empty : PtrDatabase := { records := [], cap := 0, gen := 0, index := [] }

/-- Method `Database::addRecord` (lines 44-48) at the pointer level. `push_back`
reallocates exactly when the vector is full (libstdc++ then grows the
capacity to `max 1 (2 * size)`); reallocation moves the buffer, so the new
buffer gets a fresh generation and every previously stored pointer becomes
dangling. The new index entry records the current generation. -/
def PtrDatabase.addRecord (db : PtrDatabase) (r : Record) : PtrDatabase :=
  let realloc := db.records.length = db.cap
  let cap' := if realloc then max 1 (2 * db.cap) else db.cap
  let gen' := if realloc then db.gen + 1 else db.gen
  { records := db.records ++ [r]
    cap := cap'
    gen := gen'
    index := setIndex db.index r.uid (gen', db.records.length) }

/-- Method `Database::findRecord` (lines 51-57) at the pointer level: the method
returns the stored raw pointer as-is (it does not dereference it). -/
def PtrDatabase.findRecordPtr (db : PtrDatabase) (uid : Str) : Option (Nat × Nat) :=
  findIndex db.index uid

/-- Dereferencing a stored pointer, as the demo does at line 235: defined
(the pointee) only while the pointer's generation is still the buffer's
generation; a dangling pointer yields `none` (undefined behaviour in C++). -/
def PtrDatabase.deref (db : PtrDatabase) (p : Nat × Nat) : Option Record :=
  if p.1 = db.gen then db.records[p.2]? else none

/-- The successive outputs of the generator's byte source
`dist(gen)` (lines 74-79, a mt19937 drawn through
`uniform_int_distribution<int>(0, 255)`) are modelled as an arbitrary
stream `bytes`; `pos` counts the draws made so far. -/
structure UidGenerator where
  bytes : Nat → Nat
  pos : Nat

/-- Method `UidGenerator::generateUid` (lines 81-90): draw 7 bytes from the source
and concatenate them into a string, returning the string and the advanced
generator state. -/
def UidGenerator.generateUid (g : UidGenerator) : Str × UidGenerator :=
  ((List.range 7).map (fun k => g.bytes (g.pos + k)), { g with pos := g.pos + 7 })

-- The demo's string literals (lines 228-245).
def uidABCDEFG : Str := strBytes "ABCDEFG"
def uidHIJKLMN : Str := strBytes "HIJKLMN"
def uidOPQRSTU : Str := strBytes "OPQRSTU"
def uidXXXXXXX : Str := strBytes "XXXXXXX"

/-- Outcome of running (part of) the program: normal completion, a C++
exception propagating out (with its message), or non-termination (the
benchmark's rejection-sampling loop is unbounded; the model bounds it with
fuel and reports exhaustion as `hang`). -/
inductive RunRes (α : Type) where
  | ok (a : α)
  | exn (e : String)
  | hang
deriving DecidableEq, Repr

/-- The uniqueness loop of the benchmark (lines 122-124): `do { uid =
uidGen.generateUid(); } while (usedUids.count(uid) > 0);` — regenerate until
the uid is not in the seen-set. `fuel` bounds the number of draws; the C++
loop is unbounded. -/
def rejectLoop (g : UidGenerator) (seen : List Str) : Nat → Option (Str × UidGenerator)
  | 0 => none
  | fuel + 1 =>
    if (g.generateUid).1 ∈ seen then rejectLoop (g.generateUid).2 seen fuel
    else some (g.generateUid)

/-- The synthetic payload `"Данные для записи " + to_string(i + 1)` built at
line 127 for the record with zero-based loop index `i`. -/
def recordData (i : Nat) : Str := strBytes ("Данные для записи " ++ toString (i + 1))

/-- The record-generation loop of the benchmark (lines 119-134): `n` times,
rejection-sample a fresh uid, mark it used (`usedUids[uid] = true`),
construct a `Record` with the synthetic payload (this constructor can
throw), and add it to the database. Returns the final database, the
seen-set (most recent uid first) and the generator state. -/
def insertLoop (g : UidGenerator) (db : Database) (seen : List Str) :
    Nat → Nat → Nat → RunRes (Database × List Str × UidGenerator)
  | 0, _, _ => RunRes.ok (db, seen, g)
  | n + 1, i, fuel =>
    match rejectLoop g seen fuel with
    | none => RunRes.hang
    | some (uid, g') =>
      match Record.make uid (recordData i) with
      | Except.error e => RunRes.exn e
      | Except.ok r => insertLoop g' (db.addRecord r) (uid :: seen) n (i + 1) fuel

/-- The list of identifiers inserted by a completed run of `insertLoop`
(`none` when the run threw or hung). -/
def insertedUids (res : RunRes (Database × List Str × UidGenerator)) : Option (List Str) :=
  match res with
  | RunRes.ok (_, seen, _) => some seen
  | _ => none

/-- The search-workload construction (lines 155-163): for slot `i` below the
`split` point (the code's `i < SEARCH_TESTS * 0.7`, a floating-point
comparison whose resulting slot count is taken here as the parameter
`split`), pick an existing uid at position `sel i` modulo the pool size
(the code's `existDist(gen)`, a uniform draw on `[0, size-1]` modelled by
the arbitrary selector stream `sel`); otherwise generate a fresh uid. The
C++ indexing is undefined on an empty pool; the model's `getD` then returns
the empty string. -/
def buildKeysGo (existing : List Str) (sel : Nat → Nat) (g : UidGenerator) (split i : Nat) :
    Nat → List Str × UidGenerator
  | 0 => ([], g)
  | k + 1 =>
    if i < split then
      let key := existing.getD (sel i % existing.length) []
      let p := buildKeysGo existing sel g split (i + 1) k
      (key :: p.1, p.2)
    else
      let q := g.generateUid
      let p := buildKeysGo existing sel q.2 split (i + 1) k
      (q.1 :: p.1, p.2)

/-- The full workload of `m` search keys (lines 155-163). -/
def buildSearchKeys (existing : List Str) (sel : Nat → Nat) (g : UidGenerator)
    (m split : Nat) : List Str × UidGenerator :=
  buildKeysGo existing sel g split 0 m

/-- Swap the elements at positions `i` and `j` of a list (identity when a
position is out of range). -/
def listSwap {α : Type} (l : List α) (i j : Nat) : List α :=
  match l[i]?, l[j]? with
  | some a, some b => (l.set i b).set j a
  | _, _ => l

/-- One pass of the Fisher-Yates shuffle performed by `std::shuffle`
(line 166): for `i` from `n - 1` down to `1`, swap position `i` with a
random position in `[0, i]`; the random draws of the URBG are modelled by
the arbitrary stream `rand`. -/
def fyGo {α : Type} (rand : Nat → Nat) (l : List α) : Nat → List α
  | 0 => l
  | i + 1 => fyGo rand (listSwap l (i + 1) (rand (i + 1) % (i + 2))) i

/-- The shuffle `std::shuffle(searchKeys.begin(), searchKeys.end(), gen)` (line 166). -/
def fisherYates {α : Type} (rand : Nat → Nat) (l : List α) : List α :=
  fyGo rand l (l.length - 1)

/-- The lookup phase of the benchmark (lines 171-188): run `findRecord` on
each key in order, incrementing `foundCount` on a non-null result and
`notFoundCount` otherwise; returns `(foundCount, notFoundCount)`. -/
def tallyLookups (db : Database) (keys : List Str) : Nat × Nat :=
  keys.foldl
    (fun acc k =>
      match db.findRecord k with
      | some _ => (acc.1 + 1, acc.2)
      | none => (acc.1, acc.2 + 1))
    (0, 0)

/-- Function `demonstration()` (lines 222-246): construct and insert the three fixed
records (each construction can throw, propagating out of the function),
then perform the hit lookup, the miss lookup and the size query; the
returned triple collects the three observations printed by the demo. -/
def demonstrationM : Except String (Option Record × Option Record × Nat) := do
  let r1 ← Record.make uidABCDEFG (strBytes "Тестовая запись 1")
  let r2 ← Record.make uidHIJKLMN (strBytes "Тестовая запись 2")
  let r3 ← Record.make uidOPQRSTU (strBytes "Тестовая запись 3")
  let db := ((Database.empty.addRecord r1).addRecord r2).addRecord r3
  pure (db.findRecord uidABCDEFG, db.findRecord uidXXXXXXX, db.size)

/-- Function `runPerformanceTest()` (lines 105-219), with the wall-clock timing and
statistics printing omitted (they do not affect control flow): generate and
insert `n` records with unique uids, collect the existing uids (the
unspecified `unordered_map` iteration order is taken to be the seen-set
order; no property proved below depends on it), build and shuffle the
workload of `m` keys, and tally hits and misses. Returns
`(db.size(), foundCount, notFoundCount)`. -/
def runPerfM (g : UidGenerator) (sel rand : Nat → Nat) (n m split fuel : Nat) :
    RunRes (Nat × Nat × Nat) :=
  match insertLoop g Database.empty [] n 0 fuel with
  | RunRes.hang => RunRes.hang
  | RunRes.exn e => RunRes.exn e
  | RunRes.ok (db, seen, g') =>
    let existingUids := seen
    let keys := (buildSearchKeys existingUids sel g' m split).1
    let shuffled := fisherYates rand keys
    let t := tallyLookups db shuffled
    RunRes.ok (db.size, t.1, t.2)

/-- The try-block of `main` (lines 255-261): run the demo, then the
benchmark; an exception thrown by either propagates out uncaught. -/
def fullProgram (g : UidGenerator) (sel rand : Nat → Nat) (n m split fuel : Nat) :
    RunRes Unit :=
  match demonstrationM with
  | Except.error e => RunRes.exn e
  | Except.ok _ =>
    match runPerfM g sel rand n m split fuel with
    | RunRes.hang => RunRes.hang
    | RunRes.exn e => RunRes.exn e
    | RunRes.ok _ => RunRes.ok ()

/-- The catch-and-exit logic of `main` (lines 248-269): normal completion
returns exit status 0; a caught exception is reported on `cerr` and the
program returns exit status 1; a hanging run never exits (`none`). -/
def mainCatch (r : RunRes Unit) : Option Nat :=
  match r with
  | RunRes.ok _ => some 0
  | RunRes.exn _ => some 1
  | RunRes.hang => none

/-- Function `main` (lines 248-269): the exit status of a program run, `none` when
the run does not terminate. -/
def mainRun (g : UidGenerator) (sel rand : Nat → Nat) (n m split fuel : Nat) : Option Nat :=
  mainCatch (fullProgram g sel rand n m split fuel)

-- The three records inserted by the demo (lines 228-230), as constructed.
def demoRecord1 : Record := { uid := uidABCDEFG, data := strBytes "Тестовая запись 1" }
def demoRecord2 : Record := { uid := uidHIJKLMN, data := strBytes "Тестовая запись 2" }
def demoRecord3 : Record := { uid := uidOPQRSTU, data := strBytes "Тестовая запись 3" }

/-- The demo database (lines 225-230) at the pointer level: the three
insertions into an initially empty vector. -/
def demoPtrDb : PtrDatabase :=
  ((PtrDatabase.empty.addRecord demoRecord1).addRecord demoRecord2).addRecord demoRecord3

/-! ### Helper lemmas -/

theorem findIndex_setIndex_self {α : Type} (idx : List (Str × α)) (k : Str) (v : α) :
    findIndex (setIndex idx k v) k = some v := by
  induction idx with
  | nil => simp [setIndex, findIndex]
  | cons p rest ih =>
    obtain ⟨k', v'⟩ := p
    by_cases h : k' = k
    · simp [setIndex, findIndex, h]
    · simp [setIndex, findIndex, h, ih]

theorem findIndex_setIndex_ne {α : Type} (idx : List (Str × α)) (k k' : Str) (v : α)
    (h : k' ≠ k) : findIndex (setIndex idx k v) k' = findIndex idx k' := by
  induction idx with
  | nil => simp [setIndex, findIndex, Ne.symm h]
  | cons p rest ih =>
    obtain ⟨k'', v''⟩ := p
    by_cases hk : k'' = k
    · subst hk
      simp [setIndex, findIndex, Ne.symm h]
    · simp [setIndex, findIndex, hk, ih]

theorem findRecord_of_findIndex_none (db : Database) (uid : Str)
    (h : findIndex db.index uid = none) : db.findRecord uid = none := by
  unfold Database.findRecord
  rw [h]

theorem findIndex_runOps_none (ops : List DbOp) (db : Database) (uid : Str)
    (hmem : uid ∉ opsInsertedUids ops) (h : findIndex db.index uid = none) :
    findIndex (db.runOps ops).index uid = none := by
  induction ops generalizing db with
  | nil => simpa [Database.runOps] using h
  | cons op rest ih =>
    cases op with
    | add r =>
      have h1 : uid ≠ r.uid := by
        intro he
        exact hmem (by simp [opsInsertedUids, he])
      have h2 : uid ∉ opsInsertedUids rest := by
        intro he
        exact hmem (by simp [opsInsertedUids, he])
      have h3 : findIndex (db.addRecord r).index uid = none := by
        unfold Database.addRecord
        rw [findIndex_setIndex_ne _ _ _ _ h1]
        exact h
      simpa [Database.runOps, Database.runOp] using ih (db.addRecord r) h2 h3
    | clear =>
      have h2 : uid ∉ opsInsertedUids rest := by
        intro he
        exact hmem (by simp [opsInsertedUids, he])
      exact ih db.clear h2 rfl

/-! ### Claims -/

/-- Claim C2: for every identifier of length not equal to 7, record
construction fails with the invalid-identifier-length error; for every
identifier of length exactly 7, construction succeeds and the getters
return the identifier and payload unchanged from the constructor
arguments. -/
theorem C2_record_construction (uid data : Str) :
    (uid.length ≠ 7 → Record.make uid data = Except.error uidLengthError) ∧
    (uid.length = 7 →
      Record.make uid data = Except.ok { uid := uid, data := data } ∧
      ∀ r : Record, Record.make uid data = Except.ok r →
        r.getUid = uid ∧ r.getData = data) := by
  constructor
  · intro h
    simp [Record.make, h]
  · intro h
    have hmk : Record.make uid data = Except.ok { uid := uid, data := data } := by
      simp [Record.make, h]
    refine ⟨hmk, ?_⟩
    intro r hr
    rw [hmk] at hr
    cases hr
    exact ⟨rfl, rfl⟩

/-- Witness for C2 at the concrete identifiers `"X"` (length 1, rejected)
and `"ABCDEFG"` (length 7, accepted with fields unchanged). -/
theorem C2_record_construction_witness :
    Record.make [88] [1, 2] = Except.error uidLengthError ∧
    Record.make uidABCDEFG [1, 2] = Except.ok { uid := uidABCDEFG, data := [1, 2] } :=
  ⟨(C2_record_construction [88] [1, 2]).1 (by decide),
   ((C2_record_construction uidABCDEFG [1, 2]).2 (by decide)).1⟩

/-- Claim C4: inserting a record whose identifier is already present
overwrites the mapping entry (a subsequent lookup of that identifier
reaches only the newly inserted record), leaves every older record in the
sequence as stored (an unreachable orphan when its uid is shadowed), and
`size` grows by one on every insertion, duplicates included. -/
theorem C4_duplicate_insert_overwrites (db : Database) (r : Record) :
    (db.addRecord r).findRecord r.uid = some r ∧
    (db.addRecord r).size = db.size + 1 ∧
    (db.addRecord r).records = db.records ++ [r] := by
  refine ⟨?_, ?_, rfl⟩
  · unfold Database.addRecord Database.findRecord
    rw [findIndex_setIndex_self]
    exact List.getElem?_concat_length db.records r
  · simp [Database.addRecord, Database.size]

/-- Claim C5: looking up an identifier that no insertion of the operation
sequence ever used returns the not-found sentinel (the null pointer). -/
theorem C5_lookup_never_inserted (ops : List DbOp) (uid : Str)
    (h : uid ∉ opsInsertedUids ops) :
    (Database.empty.runOps ops).findRecord uid = none :=
  findRecord_of_findIndex_none _ _
    (findIndex_runOps_none ops Database.empty uid h rfl)

/-- Witness for C5: the demo's miss, `findRecord("XXXXXXX")` on a store
holding only the record with uid `"ABCDEFG"`. -/
theorem C5_lookup_never_inserted_witness :
    (Database.empty.runOps [DbOp.add demoRecord1]).findRecord uidXXXXXXX = none :=
  C5_lookup_never_inserted [DbOp.add demoRecord1] uidXXXXXXX (by decide)

/-- Claim C6: after `clear()` the store reports `size() == 0` and every
lookup — including of every identifier inserted before the clear — returns
the not-found sentinel. -/
theorem C6_clear_resets (db : Database) :
    db.clear.size = 0 ∧ ∀ uid : Str, db.clear.findRecord uid = none :=
  ⟨rfl, fun _ => rfl⟩

/-- Claim C1 (counter-evidence, see the pointer-level model): the mapping
does NOT provide stable references. After the demo's own three insertions
the vector has reallocated twice (capacity 1, then 2, then 4; generations
1, 2, 3), so the pointer stored for `"ABCDEFG"` at generation 1 is dangling
when `findRecord("ABCDEFG")` returns it, and dereferencing it (line 235 of
the source) is undefined behaviour — it no longer denotes the inserted
record. -/
theorem C1_stored_reference_dangles :
    demoPtrDb.findRecordPtr uidABCDEFG = some (1, 0) ∧
    demoPtrDb.gen = 3 ∧
    demoPtrDb.deref (1, 0) = none := by
  refine ⟨by decide, by decide, by decide⟩

/-- Claim C10: `findRecord` is a pure query: it leaves the store unchanged,
so `size` and every subsequent lookup observe the same values as before the
call, and its result is the lookup result. -/
theorem C10_findRecord_is_pure (db : Database) (uid : Str) :
    (db.findRecordSt uid).2.size = db.size ∧
    (∀ uid' : Str, (db.findRecordSt uid).2.findRecord uid' = db.findRecord uid') ∧
    (db.findRecordSt uid).1 = db.findRecord uid := by
  unfold Database.findRecordSt Database.findRecord
  cases h : findIndex db.index uid <;> simp [h, Database.findRecord]

theorem tallyLookups_foldl_sum (db : Database) (keys : List Str) (acc : Nat × Nat) :
    (keys.foldl
      (fun acc k =>
        match db.findRecord k with
        | some _ => (acc.1 + 1, acc.2)
        | none => (acc.1, acc.2 + 1)) acc).1 +
    (keys.foldl
      (fun acc k =>
        match db.findRecord k with
        | some _ => (acc.1 + 1, acc.2)
        | none => (acc.1, acc.2 + 1)) acc).2 = acc.1 + acc.2 + keys.length := by
  induction keys generalizing acc with
  | nil => simp
  | cons k rest ih =>
    simp only [List.foldl_cons, List.length_cons]
    cases h : db.findRecord k <;> simp [h, ih] <;> omega

theorem listSwap_length {α : Type} (l : List α) (i j : Nat) :
    (listSwap l i j).length = l.length := by
  unfold listSwap
  cases h1 : l[i]? <;> cases h2 : l[j]? <;> simp

theorem fyGo_length {α : Type} (rand : Nat → Nat) (i : Nat) (l : List α) :
    (fyGo rand l i).length = l.length := by
  induction i generalizing l with
  | zero => rfl
  | succ i ih => simp [fyGo, ih, listSwap_length]

theorem fisherYates_length {α : Type} (rand : Nat → Nat) (l : List α) :
    (fisherYates rand l).length = l.length :=
  fyGo_length rand (l.length - 1) l

theorem buildKeysGo_length (existing : List Str) (sel : Nat → Nat) (split : Nat) :
    ∀ (k : Nat) (i : Nat) (g : UidGenerator),
      (buildKeysGo existing sel g split i k).1.length = k := by
  intro k
  induction k with
  | zero => intro i g; rfl
  | succ k ih =>
    intro i g
    by_cases h : i < split <;> simp [buildKeysGo, h, ih]

/-- Claim C7: over any workload built, shuffled and looked up as the
benchmark does it, each of the `m` search keys is classified as exactly one
of hit or miss, so the final hit count plus miss count equals `m`. -/
theorem C7_hits_plus_misses (db : Database) (existing : List Str)
    (sel rand : Nat → Nat) (g : UidGenerator) (m split : Nat) :
    (tallyLookups db (fisherYates rand (buildSearchKeys existing sel g m split).1)).1 +
    (tallyLookups db (fisherYates rand (buildSearchKeys existing sel g m split).1)).2
      = m := by
  have hlen : (fisherYates rand (buildSearchKeys existing sel g m split).1).length = m := by
    rw [fisherYates_length]
    exact buildKeysGo_length existing sel split m 0 g
  have hsum := tallyLookups_foldl_sum db
    (fisherYates rand (buildSearchKeys existing sel g m split).1) (0, 0)
  simpa [tallyLookups, hlen] using hsum

theorem rejectLoop_fresh (seen : List Str) :
    ∀ (fuel : Nat) (g g' : UidGenerator) (uid : Str),
      rejectLoop g seen fuel = some (uid, g') → uid ∉ seen ∧ uid.length = 7 := by
  intro fuel
  induction fuel with
  | zero =>
    intro g g' uid h
    simp [rejectLoop] at h
  | succ fuel ih =>
    intro g g' uid h
    unfold rejectLoop at h
    by_cases hm : (g.generateUid).1 ∈ seen
    · rw [if_pos hm] at h
      exact ih _ _ _ h
    · rw [if_neg hm] at h
      have huid : (g.generateUid).1 = uid := congrArg Prod.fst (Option.some.inj h)
      subst huid
      exact ⟨hm, by simp [UidGenerator.generateUid]⟩

theorem insertLoop_uids_spec :
    ∀ (n : Nat) (g g' : UidGenerator) (db db' : Database) (seen seen' : List Str)
      (i fuel : Nat),
      insertLoop g db seen n i fuel = RunRes.ok (db', seen', g') →
      seen.Nodup → seen'.Nodup ∧ seen'.length = seen.length + n := by
  intro n
  induction n with
  | zero =>
    intro g g' db db' seen seen' i fuel h hnd
    unfold insertLoop at h
    cases h
    exact ⟨hnd, rfl⟩
  | succ n ih =>
    intro g g' db db' seen seen' i fuel h hnd
    unfold insertLoop at h
    cases hr : rejectLoop g seen fuel with
    | none => rw [hr] at h; cases h
    | some p =>
      obtain ⟨uid, g₂⟩ := p
      rw [hr] at h
      dsimp only at h
      obtain ⟨hfresh, hlen⟩ := rejectLoop_fresh seen fuel g g₂ uid hr
      have hmk : Record.make uid (recordData i) =
          Except.ok { uid := uid, data := recordData i } := by
        simp [Record.make, hlen]
      rw [hmk] at h
      dsimp only at h
      have hnd' : (uid :: seen).Nodup := List.nodup_cons.mpr ⟨hfresh, hnd⟩
      have := ih g₂ g' _ db' (uid :: seen) seen' (i + 1) fuel h hnd'
      refine ⟨this.1, ?_⟩
      have h2 := this.2
      simp only [List.length_cons] at h2
      omega

/-- Claim C3: every completed run of the benchmark's generation loop —
`n` iterations of the seen-set rejection-sampling loop, inserting each
accepted identifier — produces `n` pairwise-distinct identifiers: the list
of inserted identifiers has no duplicates (and has length `n`). -/
theorem C3_inserted_uids_distinct (g : UidGenerator) (n fuel : Nat) (uids : List Str)
    (h : insertedUids (insertLoop g Database.empty [] n 0 fuel) = some uids) :
    uids.Nodup ∧ uids.length = n := by
  cases hres : insertLoop g Database.empty [] n 0 fuel with
  | ok t =>
    obtain ⟨db', seen', g'⟩ := t
    rw [hres] at h
    simp only [insertedUids, Option.some.injEq] at h
    have hs := insertLoop_uids_spec n g g' Database.empty db' [] seen' 0 fuel hres
      List.nodup_nil
    rw [h] at hs
    simpa using hs
  | exn e => rw [hres] at h; cases h
  | hang => rw [hres] at h; cases h

/-- Witness for C3: a byte source that enumerates 0, 1, 2, … produces, in
two iterations, the two distinct identifiers `[7..13]` and `[0..6]`
(most recent first). -/
theorem C3_inserted_uids_distinct_witness :
    ([[7, 8, 9, 10, 11, 12, 13], [0, 1, 2, 3, 4, 5, 6]] : List Str).Nodup ∧
    ([[7, 8, 9, 10, 11, 12, 13], [0, 1, 2, 3, 4, 5, 6]] : List Str).length = 2 :=
  C3_inserted_uids_distinct { bytes := fun k => k, pos := 0 } 2 1
    [[7, 8, 9, 10, 11, 12, 13], [0, 1, 2, 3, 4, 5, 6]] (by decide)

/-- Claim C8: the entry point exits with status 0 when the try-block (demo
then benchmark) completes normally; an exception propagating uncaught out
of the demo or benchmark is caught at the top-level entry point and turned
into exit status 1; and the program's exit status is exactly this catch
logic applied to the try-block's outcome. -/
theorem C8_exit_status :
    (∀ r : RunRes Unit, r = RunRes.ok () → mainCatch r = some 0) ∧
    (∀ (r : RunRes Unit) (e : String), r = RunRes.exn e → mainCatch r = some 1) ∧
    (∀ (g : UidGenerator) (sel rand : Nat → Nat) (n m split fuel : Nat),
      mainRun g sel rand n m split fuel
        = mainCatch (fullProgram g sel rand n m split fuel)) := by
  refine ⟨?_, ?_, ?_⟩
  · intro r h
    rw [h]
    rfl
  · intro r e h
    rw [h]
    rfl
  · intro g sel rand n m split fuel
    rfl

/-- Witness for C8 at the two concrete try-block outcomes. -/
theorem C8_exit_status_witness :
    mainCatch (RunRes.ok ()) = some 0 ∧ mainCatch (RunRes.exn "x") = some 1 :=
  ⟨C8_exit_status.1 (RunRes.ok ()) rfl, C8_exit_status.2.1 (RunRes.exn "x") "x" rfl⟩

theorem insertLoop_no_exn :
    ∀ (n : Nat) (g : UidGenerator) (db : Database) (seen : List Str) (i fuel : Nat)
      (e : String), insertLoop g db seen n i fuel ≠ RunRes.exn e := by
  intro n
  induction n with
  | zero =>
    intro g db seen i fuel e h
    cases h
  | succ n ih =>
    intro g db seen i fuel e h
    unfold insertLoop at h
    cases hr : rejectLoop g seen fuel with
    | none => rw [hr] at h; cases h
    | some p =>
      obtain ⟨uid, g₂⟩ := p
      rw [hr] at h
      dsimp only at h
      obtain ⟨hfresh, hlen⟩ := rejectLoop_fresh seen fuel g g₂ uid hr
      have hmk : Record.make uid (recordData i) =
          Except.ok { uid := uid, data := recordData i } := by
        simp [Record.make, hlen]
      rw [hmk] at h
      dsimp only at h
      exact ih g₂ (db.addRecord _) (uid :: seen) (i + 1) fuel e h

theorem runPerfM_no_exn (g : UidGenerator) (sel rand : Nat → Nat)
    (n m split fuel : Nat) (e : String) :
    runPerfM g sel rand n m split fuel ≠ RunRes.exn e := by
  unfold runPerfM
  cases hr : insertLoop g Database.empty [] n 0 fuel with
  | ok t => obtain ⟨db, seen, g'⟩ := t; intro h; cases h
  | exn e' => exact absurd hr (insertLoop_no_exn n g Database.empty [] 0 fuel e')
  | hang => intro h; cases h

theorem fullProgram_no_exn (g : UidGenerator) (sel rand : Nat → Nat)
    (n m split fuel : Nat) (e : String) :
    fullProgram g sel rand n m split fuel ≠ RunRes.exn e := by
  unfold fullProgram
  have hd : demonstrationM = Except.ok (some demoRecord1, none, 3) := by rfl
  rw [hd]
  cases hp : runPerfM g sel rand n m split fuel with
  | ok t => intro h; cases h
  | exn e' => exact absurd hp (runPerfM_no_exn g sel rand n m split fuel e')
  | hang => intro h; cases h

/-- Claim C9: every identifier the program passes to the `Record`
constructor has length exactly 7 — `generateUid` always builds a 7-byte
string — so the invalid-identifier-length branch is unreachable in a run
and the error exit path is never taken: a terminating run of `main` exits
with status 0. -/
theorem C9_error_exit_never_taken :
    (∀ g : UidGenerator, (g.generateUid).1.length = 7) ∧
    (∀ (g : UidGenerator) (sel rand : Nat → Nat) (n m split fuel : Nat),
      mainRun g sel rand n m split fuel = some 0 ∨
      mainRun g sel rand n m split fuel = none) := by
  constructor
  · intro g
    simp [UidGenerator.generateUid]
  · intro g sel rand n m split fuel
    unfold mainRun
    cases hf : fullProgram g sel rand n m split fuel with
    | ok u => left; rfl
    | exn e => exact absurd hf (fullProgram_no_exn g sel rand n m split fuel e)
    | hang => right; rfl

end UidSearch
